import Mathlib

set_option maxRecDepth 16384

/-!
Shallow embedding of the transaction microservice (Flask app, `src/app`),
centred on the `POST /transactions` route `create_transaction` in
`src/app/routes.py`, the `Transaction` and `Idempotency` models in
`src/app/models.py`, and the `GET /transactions` listing.

Modelling conventions:
* JSON scalar values that the route inspects (`account_id`,
  `counterparty_id`, `amount`) are modelled by `PyVal` (integer or string),
  with Python truthiness (`pyTruthy`), `int(...)` (`pyInt`) and
  `float(...)` (`pyFloat`) made explicit.  Amounts are rationals: every
  float value occurring in the route's arithmetic (sums, comparisons,
  negation, `abs`) is handled exactly on the rationals for the magnitudes
  the service deals in.
* `datetime` values are an abstract integer timeline (seconds); the route's
  environment carries `startOfDay` (midnight of the current UTC day, i.e.
  `datetime(today.year, today.month, today.day)`) and `now`
  (`datetime.utcnow()`, the column default for `created_dt`).
  `timedelta(days=1)` is the constant `DAY`.
* The SHA-256 request digest
  `hashlib.sha256(json.dumps(sorted items except correlation_id)).hexdigest()`
  is modelled by the canonical key-sorted content it digests (`RHash`):
  identical bodies get equal digests, and distinct canonical bodies get
  distinct digests (SHA-256 collision-freeness assumption).
* The database session is modelled by `DB` (committed rows only) together
  with `commitRows`, which checks the store-level constraints SQLite
  enforces on insert: uniqueness of non-null `Transaction.reference` and of
  the `Idempotency` composite primary key.  A commit either installs all
  pending rows or none (`Option DB`); `db.session.rollback()` after a
  successful commit is a no-op on committed rows, which the embedding
  captures by never mutating a committed `DB`.
* The two outbound HTTP calls the route can make (accounts `/check` and
  `/update-balance`) are oracles in the environment; the result records
  whether each call was issued.  The notification calls are fire-and-forget
  (every exception is caught and logged) and alter no modelled state, so
  they are omitted.
-/

/-- A JSON scalar as the route observes it: an integer or a string.
(`create_transaction` only applies truthiness, `int(...)`, `float(...)`
and identity to these fields.) -/
inductive PyVal where
  | int (n : ℤ)
  | str (s : String)
deriving DecidableEq, Repr

/-- Python truthiness of a `PyVal`: `0` and `""` are falsy. -/
def pyTruthy : PyVal → Bool
  | .int n => n ≠ 0
  | .str s => s ≠ ""

/-- Truthiness of `data.get(field)`: a missing key yields `None`, which is falsy. -/
def truthyOpt : Option PyVal → Bool
  | none => false
  | some v => pyTruthy v

/-- Digits of a decimal numeral to a natural number; `none` on the empty
string or a non-digit (Python `int`/`float` would raise `ValueError`). -/
def digitsToNat : List Char → Option ℕ
  | [] => none
  | cs =>
    cs.foldl (fun acc c =>
      acc.bind fun n => if c.isDigit then some (10 * n + (c.toNat - 48)) else none)
      (some 0)

/-- Python `int(s)` on a string: optional leading minus then digits. -/
def parseIntStr (s : String) : Option ℤ :=
  match s.data with
  | '-' :: rest => (digitsToNat rest).map (fun n => -(n : ℤ))
  | cs => (digitsToNat cs).map (fun n => (n : ℤ))

/-- Python `float(s)` on a plain decimal string:
optional leading minus, integer part, optional fractional part
(the value `i.f` is the exact rational `(i·10^k + f) / 10^k`). -/
def parseFloatStr (s : String) : Option ℚ :=
  let core : List Char → Option ℚ := fun cs =>
    match cs.span (fun c => c ≠ '.') with
    | (ip, []) => (digitsToNat ip).map (fun n => mkRat n 1)
    | (ip, _ :: frac) =>
      (digitsToNat ip).bind fun i =>
        match frac with
        | [] => some (mkRat i 1)
        | _ =>
          (digitsToNat frac).map fun f =>
            mkRat (i * 10 ^ frac.length + f) (10 ^ frac.length)
  match s.data with
  | '-' :: rest => (core rest).map (fun q => -q)
  | cs => core cs

/-- Python `int(v)`: identity on integers, `parseIntStr` on strings
(`none` models the raised `ValueError`). -/
def pyInt : PyVal → Option ℤ
  | .int n => some n
  | .str s => parseIntStr s

/-- Python `float(v)`: exact on integers, `parseFloatStr` on strings
(`none` models the raised `ValueError`). -/
def pyFloat : PyVal → Option ℚ
  | .int n => some (mkRat n 1)
  | .str s => parseFloatStr s

/-- Python `abs` on an exact float value. -/
def absQ (q : ℚ) : ℚ := if q < 0 then -q else q

/-- The JSON body of a `POST /transactions` request, with `none` for an
absent key (`request.get_json() or {}` then `data.get(...)`). -/
structure Req where
  account_id : Option PyVal
  counterparty_id : Option PyVal
  amount : Option PyVal
  txn_type : Option String
  reference : Option String
  correlation_id : Option String
  created_dt : Option ℤ
deriving DecidableEq, Repr

/-- The canonical content digested by the idempotency `request_hash`:
`{k: v for k, v in sorted(data.items()) if k != "correlation_id"}`,
serialized canonically and hashed with SHA-256.  Equality of `RHash`
values models equality of the hex digests. -/
structure RHash where
  account_id : Option PyVal
  counterparty_id : Option PyVal
  amount : Option PyVal
  txn_type : Option String
  reference : Option String
  created_dt : Option ℤ
deriving DecidableEq, Repr

/-- The `request_hash` of a request body: all fields except `correlation_id`,
in canonical (key-sorted) form. -/
def request_hash (d : Req) : RHash :=
  ⟨d.account_id, d.counterparty_id, d.amount, d.txn_type, d.reference, d.created_dt⟩

/-- A row of the `transaction` table (`src/app/models.py`).
`counterparty_id` stores the raw JSON value the route assigns to it
(the deposit leg receives the sender's raw `account_id`). -/
structure Transaction where
  txn_id : ℕ
  account_id : Option ℤ
  counterparty_id : Option PyVal
  amount : ℚ
  txn_type : Option String
  reference : Option String
  created_dt : ℤ
  failure_status : Option String
  correlation_id : Option String
deriving DecidableEq, Repr

/-- A row of the `idempotency` table: composite primary key
`(key, request_hash)` (`created_at` carries no behaviour and is omitted). -/
structure IdemRow where
  key : String
  request_hash : RHash
deriving DecidableEq, Repr

/-- The committed ledger store: both tables in insertion order, plus the
next autoincrement value for `transaction.txn_id`. -/
structure DB where
  transactions : List Transaction
  idempotency : List IdemRow
  nextId : ℕ
deriving DecidableEq, Repr

/-- Does inserting `new` (in order) after `old` violate the uniqueness
constraint on non-null `Transaction.reference`? -/
def newRefsClash : List Transaction → List Transaction → Bool
  | _, [] => false
  | old, t :: rest =>
    (t.reference.isSome &&
      ((old ++ rest).any fun u => u.reference = t.reference))
    || newRefsClash (t :: old) rest

/-- Does inserting `new` after `old` violate the `idempotency`
composite primary key `(key, request_hash)`? -/
def newIdemClash : List IdemRow → List IdemRow → Bool
  | _, [] => false
  | old, r :: rest =>
    ((old ++ rest).any fun u => u.key = r.key ∧ u.request_hash = r.request_hash)
    || newIdemClash (r :: old) rest

/-- Semantics of `db.session.commit()` for a unit of pending inserts: all rows commit
together, or a constraint violation raises and nothing persists. -/
def commitRows (db : DB) (ts : List Transaction) (irs : List IdemRow) : Option DB :=
  if newRefsClash db.transactions ts || newIdemClash db.idempotency irs then none
  else some ⟨db.transactions ++ ts, db.idempotency ++ irs, db.nextId + ts.length⟩

/-- Result of the accounts-service `/check` call: a raised
`requests.exceptions.RequestException`, or a response with status code,
the two parties' `status` fields, and the sender balance as observed by
`float(acc_data.get("balance", 0))` (`none` models that conversion
raising; a missing balance key is `some 0`). -/
inductive CheckResult where
  | transportError
  | response (status : ℕ) (accStatus cpStatus : Option String) (balance : Option ℚ)
deriving DecidableEq, Repr

/-- Result of the accounts-service `/update-balance` call. -/
inductive UpdateResult where
  | transportError
  | response (status : ℕ)
deriving DecidableEq, Repr

/-- Per-request environment: the current UTC day's midnight, the current
time (the `created_dt` column default), and the oracle outcomes of the two
accounts-service calls, should the route issue them. -/
structure Env where
  startOfDay : ℤ
  now : ℤ
  check : CheckResult
  update : UpdateResult
deriving Repr

/-- One day, `timedelta(days=1)`, on the seconds timeline. -/
def DAY : ℤ := 86400

/-- The fixed daily cap from the route. -/
def DAILY_LIMIT : ℚ := 200000

/-- The distinct responses `create_transaction` can return.  Constructors
carry the identifiers the JSON body exposes; everything else about a
response is its (status code, error template) pair, recovered below by
`statusCode` and `errorTemplate`. -/
inductive Outcome where
  /-- 400 `Missing required fields: amount and txn_type` -/
  | missingFields
  /-- 400 `Invalid amount` (first, `or 0` parse) -/
  | invalidAmount
  /-- 500 `Error checking daily limit: ...` (exception inside the limit query) -/
  | limitCheckError
  /-- 400 `Daily transaction limit of 200000 exceeded ...` -/
  | limitExceeded
  /-- 409 `Duplicate transaction` with `original_txn_id` -/
  | duplicate (orig : Option ℕ)
  /-- 400 `Invalid amount for transfer` -/
  | invalidTransferAmount
  /-- 400 `account_id and counterparty_id required for transfer` -/
  | missingTransferParties
  /-- 502 `Failed to fetch account or counterparty info` (check non-200) -/
  | checkFailed
  /-- 400 `Account or counterparty is frozen` -/
  | frozen
  /-- 400 `Account or counterparty is not active` -/
  | notActive
  /-- 400 `Insufficient balance in account; overdraft not allowed` -/
  | overdraft
  /-- 502 `Error contacting accounts service: ...` (check transport failure) -/
  | accountsUnavailable
  /-- 500 `Unexpected error validating accounts: ...` -/
  | checkUnexpectedError
  /-- 500 `Error creating transfer transactions: ...` (transfer write stage) -/
  | transferCreateFailed
  /-- 502 `Balance update failed` (update-balance non-200, either path) -/
  | balanceUpdateFailed
  /-- 502 `Error contacting account service: ...` (transfer path, update raised) -/
  | updateContactFailed
  /-- 201 `Transfer completed` with both leg ids -/
  | transferCompleted (wid did : ℕ)
  /-- 500 bare `str(e)` (single-leg write stage) -/
  | singleCreateFailed
  /-- 500 `Error creating transfer transactions: ...` (single-leg path, update raised) -/
  | singleUpdateContactFailed
  /-- 201 `Transaction created successfully` with the row id -/
  | created (tid : ℕ)
deriving DecidableEq, Repr

/-- HTTP status code of each response, from the literals in the route. -/
def statusCode : Outcome → ℕ
  | .missingFields => 400
  | .invalidAmount => 400
  | .limitCheckError => 500
  | .limitExceeded => 400
  | .duplicate _ => 409
  | .invalidTransferAmount => 400
  | .missingTransferParties => 400
  | .checkFailed => 502
  | .frozen => 400
  | .notActive => 400
  | .overdraft => 400
  | .accountsUnavailable => 502
  | .checkUnexpectedError => 500
  | .transferCreateFailed => 500
  | .balanceUpdateFailed => 502
  | .updateContactFailed => 502
  | .transferCompleted _ _ => 201
  | .singleCreateFailed => 500
  | .singleUpdateContactFailed => 500
  | .created _ => 201

/-- The fixed prefix of the `error` string of each non-created response
(`""` for the successes and for the bare `str(e)` 500). -/
def errorTemplate : Outcome → String
  | .missingFields => "Missing required fields: amount and txn_type"
  | .invalidAmount => "Invalid amount"
  | .limitCheckError => "Error checking daily limit"
  | .limitExceeded => "Daily transaction limit exceeded"
  | .duplicate _ => "Duplicate transaction"
  | .invalidTransferAmount => "Invalid amount for transfer"
  | .missingTransferParties => "account_id and counterparty_id required for transfer"
  | .checkFailed => "Failed to fetch account or counterparty info"
  | .frozen => "Account or counterparty is frozen"
  | .notActive => "Account or counterparty is not active"
  | .overdraft => "Insufficient balance in account; overdraft not allowed"
  | .accountsUnavailable => "Error contacting accounts service"
  | .checkUnexpectedError => "Unexpected error validating accounts"
  | .transferCreateFailed => "Error creating transfer transactions"
  | .balanceUpdateFailed => "Balance update failed"
  | .updateContactFailed => "Error contacting account service"
  | .transferCompleted _ _ => ""
  | .singleCreateFailed => ""
  | .singleUpdateContactFailed => "Error creating transfer transactions"
  | .created _ => ""

/-- Is the outcome the 409 duplicate conflict? -/
def Outcome.isDup : Outcome → Bool
  | .duplicate _ => true
  | _ => false

/-- What a call to `create_transaction` produced: the response, the
committed store afterwards, and whether each accounts-service call
(`/check`, `/update-balance`) was issued. -/
structure RouteResult where
  out : Outcome
  db : DB
  checkCalled : Bool
  updateCalled : Bool
deriving DecidableEq, Repr

/-- The first parse, `float(data.get("amount") or 0)`: a falsy amount value is replaced by
`0` before conversion; `none` models the conversion raising (HTTP 400
`Invalid amount`). -/
def amountOrZero (d : Req) : Option ℚ :=
  match d.amount with
  | none => some 0
  | some v => if pyTruthy v then pyFloat v else some 0

/-- Sum of committed amounts for `aid` with `created_dt` in
`[start_of_day, start_of_day + 1 day)` — the daily-limit query
(`coalesce(sum(amount), 0)` over the two `created_dt` bounds). -/
def dailyTotal (db : DB) (startOfDay : ℤ) (aid : ℤ) : ℚ :=
  ((db.transactions.filter fun t =>
      t.account_id = some aid ∧ startOfDay ≤ t.created_dt ∧ t.created_dt < startOfDay + DAY).map
    (fun t => t.amount)).sum

/-- The daily-limit block: runs only when `account_id` is truthy; inside
the `try`, `int(account_id)` may raise (500), then the day's total plus
the incoming amount is compared against the cap. `none` = check passed
or skipped. -/
def limitStage (env : Env) (db : DB) (d : Req) (amount : ℚ) : Option Outcome :=
  if truthyOpt d.account_id then
    match d.account_id.bind pyInt with
    | none => some .limitCheckError
    | some aid =>
      if dailyTotal db env.startOfDay aid + amount > DAILY_LIMIT then some .limitExceeded
      else none
  else none

/-- Truthiness of `data.get("correlation_id")`: the key the idempotency
logic uses when the field is present and non-empty. -/
def corrKey (d : Req) : Option String :=
  match d.correlation_id with
  | some c => if c = "" then none else some c
  | none => none

/-- The lookup `Idempotency.query.filter_by(key=..., request_hash=...).first()`. -/
def findIdem (db : DB) (c : String) (h : RHash) : Option IdemRow :=
  db.idempotency.find? fun r => r.key = c ∧ r.request_hash = h

/-- The `Idempotency.transaction` relationship
(`Transaction.correlation_id == Idempotency.key`, many rows may match; the
store resolves the scalar to the first matching row in insertion order),
as read by the duplicate branch for `original_txn_id`. -/
def origLookup (db : DB) (c : String) : Option ℕ :=
  (db.transactions.find? fun t => t.correlation_id = some c).map (fun t => t.txn_id)

/-- The withdrawal leg the transfer branch builds: debit of the sender,
negative amount, receiver as counterparty, the request's reference,
`created_dt` and correlation key. -/
def withdrawalLeg (env : Env) (db : DB) (d : Req) (amt : ℚ) (a : ℤ) : Transaction :=
  ⟨db.nextId, some a, d.counterparty_id, -absQ amt, some "withdrawal",
    d.reference, d.created_dt.getD env.now, none, d.correlation_id⟩

/-- The deposit leg the transfer branch builds: credit of the receiver,
positive amount, the sender's raw id as counterparty, the same
reference, `created_dt` and correlation key. -/
def depositLeg (env : Env) (db : DB) (d : Req) (amt : ℚ) (cp : ℤ) : Transaction :=
  ⟨db.nextId + 1, some cp, d.account_id, absQ amt, some "deposit",
    d.reference, d.created_dt.getD env.now, none, d.correlation_id⟩

/-- The idempotency insert bundled into the ledger commit: one
`(key, request_hash)` row when the correlation key is truthy, none
otherwise. -/
def idemInserts (d : Req) : List IdemRow :=
  match corrKey d with
  | some c => [⟨c, request_hash d⟩]
  | none => []

/-- The transfer write stage: build the withdrawal and deposit rows
(`int(account_id)` / `int(counterparty_id)` may raise), add the
idempotency row when the correlation key is truthy, and commit the unit;
any exception rolls back (500), then the `/update-balance` call is made
against the already-committed store. -/
def transferWrite (env : Env) (db : DB) (d : Req) (amt : ℚ) : RouteResult :=
  match d.account_id.bind pyInt, d.counterparty_id.bind pyInt with
  | some a, some cp =>
    match commitRows db [withdrawalLeg env db d amt a, depositLeg env db d amt cp]
        (idemInserts d) with
    | none => ⟨.transferCreateFailed, db, true, false⟩
    | some db₂ =>
      match env.update with
      | .transportError => ⟨.updateContactFailed, db₂, true, true⟩
      | .response s =>
        if s ≠ 200 then ⟨.balanceUpdateFailed, db₂, true, true⟩
        else ⟨.transferCompleted db.nextId (db.nextId + 1), db₂, true, true⟩
  | _, _ => ⟨.transferCreateFailed, db, true, false⟩

/-- The transfer branch (`txn_type == "transfer"`): strict
`float(data["amount"])`, the party-presence check, the accounts `/check`
pre-check (status codes, FROZEN/ACTIVE, overdraft), then the write
stage.  Every rejection before the write leaves the store untouched. -/
def transferStage (env : Env) (db : DB) (d : Req) : RouteResult :=
  match d.amount.bind pyFloat with
  | none => ⟨.invalidTransferAmount, db, false, false⟩
  | some amt =>
    if !(truthyOpt d.account_id && truthyOpt d.counterparty_id) then
      ⟨.missingTransferParties, db, false, false⟩
    else
      match env.check with
      | .transportError => ⟨.accountsUnavailable, db, true, false⟩
      | .response status accStatus cpStatus balance =>
        if status ≠ 200 then ⟨.checkFailed, db, true, false⟩
        else if accStatus = some "FROZEN" || cpStatus = some "FROZEN" then
          ⟨.frozen, db, true, false⟩
        else if accStatus ≠ some "ACTIVE" || cpStatus ≠ some "ACTIVE" then
          ⟨.notActive, db, true, false⟩
        else
          match balance with
          | none => ⟨.checkUnexpectedError, db, true, false⟩
          | some senderBalance =>
            if senderBalance < amt then ⟨.overdraft, db, true, false⟩
            else transferWrite env db d amt

/-- The one row the non-transfer branch builds, from the raw request
fields (`failure_status` is always `None`). -/
def singleRow (env : Env) (db : DB) (d : Req) (aid : Option ℤ) (amt : ℚ) : Transaction :=
  ⟨db.nextId, aid, d.counterparty_id, amt, d.txn_type,
    d.reference, d.created_dt.getD env.now, none, d.correlation_id⟩

/-- The non-transfer write-and-settle sequence once `account_id` has been
resolved to `aid`: strict `float(data["amount"])` (raising into the
catch-all 500), the idempotency row when the correlation key is truthy,
one atomic commit, then `/update-balance` against the already-committed
store — with the quirk that a raised update call lands in a handler whose
`rollback()` is a no-op after the commit and whose 500 reuses the
transfer-creation error template. -/
def singleWrite (env : Env) (db : DB) (d : Req) (aid : Option ℤ) : RouteResult :=
  match d.amount.bind pyFloat with
  | none => ⟨.singleCreateFailed, db, false, false⟩
  | some amt =>
    match commitRows db [singleRow env db d aid amt] (idemInserts d) with
    | none => ⟨.singleCreateFailed, db, false, false⟩
    | some db₂ =>
      match env.update with
      | .transportError => ⟨.singleUpdateContactFailed, db₂, false, true⟩
      | .response s =>
        if s ≠ 200 then ⟨.balanceUpdateFailed, db₂, false, true⟩
        else ⟨.created db.nextId, db₂, false, true⟩

/-- The non-transfer branch:
`int(data["account_id"]) if data.get("account_id") else None` (a raise
lands in the catch-all 500), then the write-and-settle sequence. -/
def singleStage (env : Env) (db : DB) (d : Req) : RouteResult :=
  if truthyOpt d.account_id then
    match d.account_id.bind pyInt with
    | none => ⟨.singleCreateFailed, db, false, false⟩
    | some a => singleWrite env db d (some a)
  else singleWrite env db d none

/-- Dispatch after the duplicate check:
`txn_type = data.get("txn_type", "unknown")`, transfer or single-leg. -/
def afterDup (env : Env) (db : DB) (d : Req) : RouteResult :=
  if d.txn_type.getD "unknown" = "transfer" then transferStage env db d
  else singleStage env db d

/-- The `POST /transactions` route (`create_transaction` in `src/app/routes.py`):
required-field check, `float(data.get("amount") or 0)`, the daily-limit
block, the `request_hash` / `Idempotency` duplicate check, then the
transfer or single-leg branch. -/
def create_transaction (env : Env) (db : DB) (d : Req) : RouteResult :=
  if d.amount.isNone || d.txn_type.isNone then ⟨.missingFields, db, false, false⟩
  else
    match amountOrZero d with
    | none => ⟨.invalidAmount, db, false, false⟩
    | some amount =>
      match limitStage env db d amount with
      | some e => ⟨e, db, false, false⟩
      | none =>
        match corrKey d with
        | some c =>
          match findIdem db c (request_hash d) with
          | some _ => ⟨.duplicate (origLookup db c), db, false, false⟩
          | none => afterDup env db d
        | none => afterDup env db d

/-- The `GET /transactions` listing: every committed row, in insertion order. -/
def listTransactions (db : DB) : List Transaction :=
  db.transactions

/-- Is the outcome one of the two 201 successes? -/
def Outcome.isSuccess : Outcome → Bool
  | .created _ => true
  | .transferCompleted _ _ => true
  | _ => false

/-! ## Concrete requests, stores and service environments used in witnesses -/

/-- Accounts service healthy: check says both parties ACTIVE with a large
sender balance, update-balance returns 200. -/
def envOk : Env :=
  ⟨0, 3600, .response 200 (some "ACTIVE") (some "ACTIVE") (some 1000000), .response 200⟩

/-- Accounts service whose `/update-balance` call raises (transport
failure) while `/check` is healthy. -/
def envUpdExn : Env :=
  ⟨0, 3600, .response 200 (some "ACTIVE") (some "ACTIVE") (some 1000000), .transportError⟩

/-- A fresh store (SQLite autoincrement starts at 1). -/
def emptyDB : DB := ⟨[], [], 1⟩

/-- A deposit for account `0` far past the daily cap. -/
def reqAccountZero : Req :=
  ⟨some (.int 0), none, some (.int 500000), some "deposit", none, none, none⟩

/-- A store where account `0` already has 150000 posted today. -/
def dbAccountZero : DB :=
  ⟨[⟨1, some 0, none, 150000, some "deposit", none, 10, none, none⟩], [], 2⟩

/-- A small deposit for account `1` under correlation key `"c"`. -/
def reqDup : Req :=
  ⟨some (.int 1), none, some (.int 1), some "deposit", none, some "c", none⟩

/-- A store already holding 200000 posted today for account `1` and an
idempotency mapping exactly matching `reqDup`. -/
def dbLimitFull : DB :=
  ⟨[⟨1, some 1, none, 200000, some "deposit", none, 10, none, none⟩],
   [⟨"c", request_hash reqDup⟩], 2⟩

/-- A store holding the transaction `reqDup` produced previously (txn 1,
correlation `"c"`) and its idempotency mapping. -/
def dbDupPrior : DB :=
  ⟨[⟨1, some 1, none, 1, some "deposit", none, 10, none, some "c"⟩],
   [⟨"c", request_hash reqDup⟩], 2⟩

/-- A 60000 deposit for account `0`. -/
def reqZeroBig : Req :=
  ⟨some (.int 0), none, some (.int 60000), some "deposit", none, none, none⟩

/-- A store where account `0` already has 150000 posted today. -/
def dbZeroPosted : DB :=
  ⟨[⟨1, some 0, none, 150000, some "deposit", none, 10, none, none⟩], [], 2⟩

/-- A one-party deposit of 49999 for account `1`. -/
def reqPass49999 : Req :=
  ⟨some (.int 1), none, some (.int 49999), some "deposit", none, none, none⟩

/-- A one-party deposit of 60000 for account `1`. -/
def reqRej60000 : Req :=
  ⟨some (.int 1), none, some (.int 60000), some "deposit", none, none, none⟩

/-- A store where account `1` has 150000 posted today and a further
999999 posted *yesterday* (`created_dt = -100`, before the UTC day
start), which must not count toward the daily sum. -/
def dbPosted150k : DB :=
  ⟨[⟨1, some 1, none, 150000, some "deposit", none, 10, none, none⟩,
    ⟨2, some 1, none, 999999, some "deposit", none, -100, none, none⟩], [], 3⟩

/-- A transfer of 500 from account `1` to account `2`, no correlation key. -/
def reqTfr500 : Req :=
  ⟨some (.int 1), some (.int 2), some (.int 500), some "transfer", none, none, none⟩

/-- Accounts service reporting the sender FROZEN. -/
def envFrozen : Env :=
  ⟨0, 3600, .response 200 (some "FROZEN") (some "ACTIVE") (some 1000), .response 200⟩

/-- Accounts service reporting both parties ACTIVE but a sender balance
of only 100. -/
def envLowBal : Env :=
  ⟨0, 3600, .response 200 (some "ACTIVE") (some "ACTIVE") (some 100), .response 200⟩

/-- A transfer of 150 from account `1` to account `2`. -/
def reqTfr150 : Req :=
  ⟨some (.int 1), some (.int 2), some (.int 150), some "transfer", none, none, none⟩

/-- A transfer whose amount is the negative number −5. -/
def reqTfrNeg : Req :=
  ⟨some (.int 1), some (.int 2), some (.int (-5)), some "transfer", none, none, none⟩

/-- A transfer with no counterparty at all. -/
def reqTfrNoCp : Req :=
  ⟨some (.int 1), none, some (.int 10), some "transfer", none, none, none⟩

/-- A transfer whose amount is the empty string: falsy (so the first
`float(... or 0)` parse yields `0` and the limit check passes) but not
convertible by the strict `float(data["amount"])` of the transfer
branch. -/
def reqTfrEmptyAmt : Req :=
  ⟨some (.int 1), some (.int 2), some (.str ""), some "transfer", none, none, none⟩

/-- A deposit of 7 for account `1` under correlation key `"c"` — same key
as `reqDup` but a different body, hence a different request hash. -/
def reqNewHash : Req :=
  ⟨some (.int 1), none, some (.int 7), some "deposit", none, some "c", none⟩

/-- A store holding only the idempotency mapping recorded for `reqDup`
under key `"c"`. -/
def dbStaleMapping : DB := ⟨[], [⟨"c", request_hash reqDup⟩], 1⟩

/-- A transfer of 50 from account `1` to account `2` carrying the
client reference `"r1"`. -/
def reqTfrRef : Req :=
  ⟨some (.int 1), some (.int 2), some (.int 50), some "transfer", some "r1", none, none⟩

/-- A transfer of 500 from account `1` to account `2` under correlation
key `"t1"`, no reference. -/
def reqTfrOk : Req :=
  ⟨some (.int 1), some (.int 2), some (.int 500), some "transfer", none, some "t1", none⟩

/-- A one-party deposit of 100 for account `1`, no correlation key. -/
def reqDep100 : Req :=
  ⟨some (.int 1), none, some (.int 100), some "deposit", none, none, none⟩

/-- A deposit of 150000 for account `1` under correlation key `"k"`. -/
def reqBig150k : Req :=
  ⟨some (.int 1), none, some (.int 150000), some "deposit", none, some "k", none⟩

/-! ## Shape lemmas: which outcomes each stage can produce -/

theorem singleWrite_shape (env : Env) (db : DB) (d : Req) (aid : Option ℤ)
    (r : RouteResult) (h : singleWrite env db d aid = r) :
    r.out.isDup = false ∧ r.out ≠ Outcome.limitExceeded ∧
      ∀ wid did, r.out ≠ Outcome.transferCompleted wid did := by
  unfold singleWrite at h
  repeat' split at h
  all_goals (subst h; simp [Outcome.isDup])

theorem singleStage_shape (env : Env) (db : DB) (d : Req)
    (r : RouteResult) (h : singleStage env db d = r) :
    r.out.isDup = false ∧ r.out ≠ Outcome.limitExceeded ∧
      ∀ wid did, r.out ≠ Outcome.transferCompleted wid did := by
  unfold singleStage at h
  repeat' split at h
  all_goals first
    | exact singleWrite_shape env db d _ r h
    | (subst h; simp [Outcome.isDup])

theorem transferWrite_shape (env : Env) (db : DB) (d : Req) (amt : ℚ)
    (r : RouteResult) (h : transferWrite env db d amt = r) :
    r.out.isDup = false ∧ r.out ≠ Outcome.limitExceeded ∧
      ∀ tid, r.out ≠ Outcome.created tid := by
  unfold transferWrite at h
  repeat' split at h
  all_goals (subst h; simp [Outcome.isDup])

theorem transferStage_shape (env : Env) (db : DB) (d : Req)
    (r : RouteResult) (h : transferStage env db d = r) :
    r.out.isDup = false ∧ r.out ≠ Outcome.limitExceeded ∧
      ∀ tid, r.out ≠ Outcome.created tid := by
  unfold transferStage at h
  repeat' split at h
  all_goals first
    | exact transferWrite_shape env db d _ r h
    | (subst h; simp [Outcome.isDup])

theorem afterDup_shape (env : Env) (db : DB) (d : Req)
    (r : RouteResult) (h : afterDup env db d = r) :
    r.out.isDup = false ∧ r.out ≠ Outcome.limitExceeded := by
  unfold afterDup at h
  split at h
  · exact ⟨(transferStage_shape env db d r h).1, (transferStage_shape env db d r h).2.1⟩
  · exact ⟨(singleStage_shape env db d r h).1, (singleStage_shape env db d r h).2.1⟩

/-- The daily-limit block only ever rejects with one of its two errors. -/
theorem limitStage_some (env : Env) (db : DB) (d : Req) (q : ℚ) (e : Outcome)
    (h : limitStage env db d q = some e) :
    e = Outcome.limitCheckError ∨ e = Outcome.limitExceeded := by
  unfold limitStage at h
  repeat' split at h
  all_goals simp_all

/-! ## Inversion lemmas: what must have happened for each observable result -/

theorem singleWrite_created_inv (env : Env) (db : DB) (d : Req) (aid : Option ℤ)
    (r : RouteResult) (tid : ℕ) (h : singleWrite env db d aid = r)
    (hout : r.out = Outcome.created tid) :
    ∃ amt, d.amount.bind pyFloat = some amt ∧
      newRefsClash db.transactions [singleRow env db d aid amt] = false ∧
      newIdemClash db.idempotency (idemInserts d) = false ∧
      env.update = UpdateResult.response 200 ∧
      tid = db.nextId ∧
      r = ⟨Outcome.created db.nextId,
            ⟨db.transactions ++ [singleRow env db d aid amt],
             db.idempotency ++ idemInserts d, db.nextId + 1⟩, false, true⟩ := by
  unfold singleWrite at h
  split at h
  · subst h; simp at hout
  rename_i amt hamt
  split at h
  · subst h; simp at hout
  rename_i db₂ hcommit
  split at h
  · subst h; simp at hout
  rename_i s hupd
  split at h
  · subst h; simp at hout
  rename_i hs
  simp only [ne_eq, Decidable.not_not] at hs
  subst hs
  subst h
  simp only [RouteResult.out, Outcome.created.injEq] at hout
  unfold commitRows at hcommit
  split at hcommit
  · exact absurd hcommit (by simp)
  rename_i hclash
  simp only [Bool.or_eq_true, not_or, Bool.not_eq_true] at hclash
  refine ⟨amt, hamt, hclash.1, hclash.2, hupd, hout.symm, ?_⟩
  simp only [Option.some.injEq] at hcommit
  rw [← hcommit]
  rfl

theorem singleWrite_update_inv (env : Env) (db : DB) (d : Req) (aid : Option ℤ)
    (r : RouteResult) (h : singleWrite env db d aid = r)
    (hu : r.updateCalled = true) :
    ∃ amt, d.amount.bind pyFloat = some amt ∧
      r.db = ⟨db.transactions ++ [singleRow env db d aid amt],
              db.idempotency ++ idemInserts d, db.nextId + 1⟩ ∧
      (env.update = UpdateResult.transportError →
        r.out = Outcome.singleUpdateContactFailed) ∧
      (∀ s, env.update = UpdateResult.response s → s ≠ 200 →
        r.out = Outcome.balanceUpdateFailed) ∧
      (env.update = UpdateResult.response 200 → r.out = Outcome.created db.nextId) := by
  unfold singleWrite at h
  split at h
  · subst h; simp at hu
  rename_i amt hamt
  split at h
  · subst h; simp at hu
  rename_i db₂ hcommit
  unfold commitRows at hcommit
  split at hcommit
  · exact absurd hcommit (by simp)
  simp only [Option.some.injEq] at hcommit
  split at h
  · rename_i hupd
    subst h
    refine ⟨amt, hamt, by rw [← hcommit]; rfl, fun _ => rfl, ?_, ?_⟩
    · intro s hs; rw [hupd] at hs; exact absurd hs (by simp)
    · intro hs; rw [hupd] at hs; exact absurd hs (by simp)
  rename_i s hupd
  split at h
  · rename_i hs
    subst h
    refine ⟨amt, hamt, by rw [← hcommit]; rfl, ?_, fun _ _ _ => rfl, ?_⟩
    · intro hc; rw [hupd] at hc; exact absurd hc (by simp)
    · intro hc; rw [hupd] at hc
      simp only [UpdateResult.response.injEq] at hc
      exact absurd hc hs
  rename_i hs
  simp only [ne_eq, Decidable.not_not] at hs
  subst hs
  subst h
  refine ⟨amt, hamt, by rw [← hcommit]; rfl, ?_, ?_, fun _ => rfl⟩
  · intro hc; rw [hupd] at hc; exact absurd hc (by simp)
  · intro s₂ hc hne
    rw [hupd] at hc
    simp only [UpdateResult.response.injEq] at hc
    exact absurd hc.symm hne

theorem transferWrite_completed_inv (env : Env) (db : DB) (d : Req) (amt : ℚ)
    (r : RouteResult) (wid did : ℕ) (h : transferWrite env db d amt = r)
    (hout : r.out = Outcome.transferCompleted wid did) :
    ∃ a cp, d.account_id.bind pyInt = some a ∧ d.counterparty_id.bind pyInt = some cp ∧
      newRefsClash db.transactions
        [withdrawalLeg env db d amt a, depositLeg env db d amt cp] = false ∧
      newIdemClash db.idempotency (idemInserts d) = false ∧
      env.update = UpdateResult.response 200 ∧
      wid = db.nextId ∧ did = db.nextId + 1 ∧
      r = ⟨Outcome.transferCompleted db.nextId (db.nextId + 1),
            ⟨db.transactions ++ [withdrawalLeg env db d amt a, depositLeg env db d amt cp],
             db.idempotency ++ idemInserts d, db.nextId + 2⟩, true, true⟩ := by
  unfold transferWrite at h
  split at h
  case h_2 => subst h; simp at hout
  rename_i a cp ha hcp
  split at h
  · subst h; simp at hout
  rename_i db₂ hcommit
  split at h
  · subst h; simp at hout
  rename_i s hupd
  split at h
  · subst h; simp at hout
  rename_i hs
  simp only [ne_eq, Decidable.not_not] at hs
  subst hs
  subst h
  simp only [RouteResult.out, Outcome.transferCompleted.injEq] at hout
  unfold commitRows at hcommit
  split at hcommit
  · exact absurd hcommit (by simp)
  rename_i hclash
  simp only [Bool.or_eq_true, not_or, Bool.not_eq_true] at hclash
  refine ⟨a, cp, ha, hcp, hclash.1, hclash.2, hupd, hout.1.symm, hout.2.symm, ?_⟩
  simp only [Option.some.injEq] at hcommit
  rw [← hcommit]
  rfl

theorem transferWrite_update_inv (env : Env) (db : DB) (d : Req) (amt : ℚ)
    (r : RouteResult) (h : transferWrite env db d amt = r)
    (hu : r.updateCalled = true) :
    ∃ a cp, d.account_id.bind pyInt = some a ∧ d.counterparty_id.bind pyInt = some cp ∧
      r.db = ⟨db.transactions ++ [withdrawalLeg env db d amt a, depositLeg env db d amt cp],
              db.idempotency ++ idemInserts d, db.nextId + 2⟩ ∧
      (env.update = UpdateResult.transportError →
        r.out = Outcome.updateContactFailed) ∧
      (∀ s, env.update = UpdateResult.response s → s ≠ 200 →
        r.out = Outcome.balanceUpdateFailed) ∧
      (env.update = UpdateResult.response 200 →
        r.out = Outcome.transferCompleted db.nextId (db.nextId + 1)) := by
  unfold transferWrite at h
  split at h
  case h_2 => subst h; simp at hu
  rename_i a cp ha hcp
  split at h
  · subst h; simp at hu
  rename_i db₂ hcommit
  unfold commitRows at hcommit
  split at hcommit
  · exact absurd hcommit (by simp)
  simp only [Option.some.injEq] at hcommit
  split at h
  · rename_i hupd
    subst h
    refine ⟨a, cp, ha, hcp, by rw [← hcommit]; rfl, fun _ => rfl, ?_, ?_⟩
    · intro s hc; rw [hupd] at hc; exact absurd hc (by simp)
    · intro hc; rw [hupd] at hc; exact absurd hc (by simp)
  rename_i s hupd
  split at h
  · rename_i hs
    subst h
    refine ⟨a, cp, ha, hcp, by rw [← hcommit]; rfl, ?_, fun _ _ _ => rfl, ?_⟩
    · intro hc; rw [hupd] at hc; exact absurd hc (by simp)
    · intro hc; rw [hupd] at hc
      simp only [UpdateResult.response.injEq] at hc
      exact absurd hc hs
  rename_i hs
  simp only [ne_eq, Decidable.not_not] at hs
  subst hs
  subst h
  refine ⟨a, cp, ha, hcp, by rw [← hcommit]; rfl, ?_, ?_, fun _ => rfl⟩
  · intro hc; rw [hupd] at hc; exact absurd hc (by simp)
  · intro s₂ hc hne
    rw [hupd] at hc
    simp only [UpdateResult.response.injEq] at hc
    exact absurd hc.symm hne

/-- With a non-null `reference`, both transfer legs carry the same value,
so the insert always violates the uniqueness constraint on `reference`
and the write stage rolls back and returns the 500. -/
theorem transferWrite_reference_fails (env : Env) (db : DB) (d : Req) (amt : ℚ)
    (s : String) (href : d.reference = some s) :
    transferWrite env db d amt = ⟨Outcome.transferCreateFailed, db, true, false⟩ := by
  unfold transferWrite
  split
  case h_2 => rfl
  rename_i a cp ha hcp
  have hclash : newRefsClash db.transactions
      [withdrawalLeg env db d amt a, depositLeg env db d amt cp] = true := by
    unfold newRefsClash
    simp [withdrawalLeg, depositLeg, href, List.any_append]
  have hcommit : commitRows db
      [withdrawalLeg env db d amt a, depositLeg env db d amt cp] (idemInserts d) = none := by
    simp [commitRows, hclash]
  rw [hcommit]

theorem transferStage_completed_inv (env : Env) (db : DB) (d : Req)
    (r : RouteResult) (wid did : ℕ) (h : transferStage env db d = r)
    (hout : r.out = Outcome.transferCompleted wid did) :
    ∃ amt b, d.amount.bind pyFloat = some amt ∧
      truthyOpt d.account_id = true ∧ truthyOpt d.counterparty_id = true ∧
      env.check = CheckResult.response 200 (some "ACTIVE") (some "ACTIVE") (some b) ∧
      ¬b < amt ∧ transferWrite env db d amt = r := by
  unfold transferStage at h
  split at h
  · subst h; simp at hout
  rename_i amt hamt
  split at h
  · subst h; simp at hout
  rename_i hparties
  simp only [Bool.not_eq_true', Bool.not_eq_false] at hparties
  rw [Bool.and_eq_true] at hparties
  split at h
  · subst h; simp at hout
  rename_i status accStatus cpStatus balance hcheck
  split at h
  · subst h; simp at hout
  rename_i hstat
  simp only [ne_eq, Decidable.not_not] at hstat
  subst hstat
  split at h
  · subst h; simp at hout
  rename_i hfrozen
  split at h
  · subst h; simp at hout
  rename_i hactive
  simp only [Bool.or_eq_true, decide_eq_true_eq, not_or, ne_eq, Decidable.not_not] at hactive
  split at h
  · subst h; simp at hout
  rename_i b
  split at h
  · subst h; simp at hout
  rename_i hbal
  refine ⟨amt, b, hamt, hparties.1, hparties.2, ?_, hbal, h⟩
  rw [hcheck, hactive.1, hactive.2]

theorem transferStage_update_reach (env : Env) (db : DB) (d : Req)
    (r : RouteResult) (h : transferStage env db d = r) (hu : r.updateCalled = true) :
    ∃ amt, d.amount.bind pyFloat = some amt ∧ transferWrite env db d amt = r := by
  unfold transferStage at h
  repeat' split at h
  all_goals first
    | exact ⟨_, by assumption, h⟩
    | (subst h; simp at hu)

theorem singleStage_update_reach (env : Env) (db : DB) (d : Req)
    (r : RouteResult) (h : singleStage env db d = r) (hu : r.updateCalled = true) :
    ∃ aid, singleWrite env db d aid = r := by
  unfold singleStage at h
  repeat' split at h
  all_goals first
    | exact ⟨_, h⟩
    | (subst h; simp at hu)

theorem singleStage_created_reach (env : Env) (db : DB) (d : Req)
    (r : RouteResult) (tid : ℕ) (h : singleStage env db d = r)
    (hout : r.out = Outcome.created tid) :
    ∃ aid, singleWrite env db d aid = r := by
  unfold singleStage at h
  repeat' split at h
  all_goals first
    | exact ⟨_, h⟩
    | (subst h; simp at hout)

theorem afterDup_dispatch (env : Env) (db : DB) (d : Req)
    (r : RouteResult) (h : afterDup env db d = r) :
    (d.txn_type.getD "unknown" = "transfer" ∧ transferStage env db d = r) ∨
      (d.txn_type.getD "unknown" ≠ "transfer" ∧ singleStage env db d = r) := by
  unfold afterDup at h
  split at h
  · exact Or.inl ⟨by assumption, h⟩
  · exact Or.inr ⟨by assumption, h⟩

theorem create_update_reach (env : Env) (db : DB) (d : Req)
    (r : RouteResult) (h : create_transaction env db d = r) (hu : r.updateCalled = true) :
    afterDup env db d = r := by
  unfold create_transaction at h
  repeat' split at h
  all_goals first
    | exact h
    | (subst h; simp at hu)

theorem create_success_inv (env : Env) (db : DB) (d : Req)
    (r : RouteResult) (h : create_transaction env db d = r)
    (hs : r.out.isSuccess = true) :
    d.amount.isNone = false ∧ d.txn_type.isNone = false ∧
      (∃ q, amountOrZero d = some q ∧ limitStage env db d q = none) ∧
      (∀ c, corrKey d = some c → findIdem db c (request_hash d) = none) ∧
      afterDup env db d = r := by
  unfold create_transaction at h
  split at h
  · subst h; simp [Outcome.isSuccess] at hs
  rename_i hfields
  simp only [Bool.or_eq_true, not_or, Bool.not_eq_true] at hfields
  obtain ⟨hfa, hft⟩ := hfields
  split at h
  · subst h; simp [Outcome.isSuccess] at hs
  rename_i q hq
  split at h
  · rename_i e hlim
    subst h
    rcases limitStage_some env db d q e hlim with he | he <;>
      simp [he, Outcome.isSuccess] at hs
  rename_i hlim
  split at h
  · rename_i c hc
    split at h
    · subst h; simp [Outcome.isSuccess] at hs
    rename_i hfind
    refine ⟨hfa, hft, ⟨q, hq, hlim⟩, ?_, h⟩
    intro c₂ hc₂
    rw [hc] at hc₂
    simp only [Option.some.injEq] at hc₂
    rw [← hc₂]
    exact hfind
  · rename_i hc
    refine ⟨hfa, hft, ⟨q, hq, hlim⟩, ?_, h⟩
    intro c₂ hc₂
    rw [hc] at hc₂
    exact absurd hc₂ (by simp)

theorem isSuccess_cases (o : Outcome) (h : o.isSuccess = true) :
    (∃ tid, o = Outcome.created tid) ∨ ∃ wid did, o = Outcome.transferCompleted wid did := by
  cases o <;> simp [Outcome.isSuccess] at h <;> simp

theorem corrKey_some_inv (d : Req) (c : String) (h : corrKey d = some c) :
    d.correlation_id = some c := by
  unfold corrKey at h
  split at h
  · split at h
    · exact absurd h (by simp)
    · rename_i c₂ _
      simp only [Option.some.injEq] at h
      subst h; assumption
  · exact absurd h (by simp)

theorem idemInserts_of_corrKey (d : Req) (c : String) (h : corrKey d = some c) :
    idemInserts d = [⟨c, request_hash d⟩] := by
  unfold idemInserts
  rw [h]

/-- If the daily-limit block passed once, then on any store and clock it
either passes or rejects with `LimitExceeded` (the 500 requires an
unconvertible `account_id`, which the first pass excluded). -/
theorem limitStage_replay (env₁ env₂ : Env) (db₁ db₂ : DB) (d : Req) (q : ℚ)
    (h : limitStage env₁ db₁ d q = none) :
    limitStage env₂ db₂ d q = none ∨
      limitStage env₂ db₂ d q = some Outcome.limitExceeded := by
  unfold limitStage at h ⊢
  split at h
  · rename_i ht
    split at h
    · exact absurd h (by simp)
    rename_i aid heq
    simp only [ht, if_true, heq]
    split
    · right; rfl
    · left; rfl
  · rename_i ht
    rw [Bool.not_eq_true] at ht
    left
    simp [ht]

/-- Under the guard, parse, limit and duplicate-check conditions the
route's remaining behaviour is the post-duplicate dispatch. -/
theorem create_reduces (env : Env) (db : DB) (d : Req) (q : ℚ)
    (hfa : d.amount.isNone = false) (hft : d.txn_type.isNone = false)
    (hq : amountOrZero d = some q) (hlim : limitStage env db d q = none)
    (hdup : ∀ c, corrKey d = some c → findIdem db c (request_hash d) = none) :
    create_transaction env db d = afterDup env db d := by
  unfold create_transaction
  rw [hfa, hft]
  simp only [Bool.or_self, Bool.false_eq_true, if_false, hq, hlim]
  cases hcorr : corrKey d with
  | none => rfl
  | some c => simp [hdup c hcorr]

theorem transferWrite_createFailed_inv (env : Env) (db : DB) (d : Req) (amt : ℚ)
    (r : RouteResult) (h : transferWrite env db d amt = r)
    (hout : r.out = Outcome.transferCreateFailed) :
    r = ⟨Outcome.transferCreateFailed, db, true, false⟩ := by
  unfold transferWrite at h
  repeat' split at h
  all_goals (subst h; first | rfl | simp at hout)

theorem transferStage_createFailed_inv (env : Env) (db : DB) (d : Req)
    (r : RouteResult) (h : transferStage env db d = r)
    (hout : r.out = Outcome.transferCreateFailed) :
    r = ⟨Outcome.transferCreateFailed, db, true, false⟩ := by
  unfold transferStage at h
  repeat' split at h
  all_goals first
    | exact transferWrite_createFailed_inv env db d _ r h hout
    | (subst h; simp at hout)

theorem singleWrite_ne_transferCreateFailed (env : Env) (db : DB) (d : Req)
    (aid : Option ℤ) (r : RouteResult) (h : singleWrite env db d aid = r) :
    r.out ≠ Outcome.transferCreateFailed := by
  unfold singleWrite at h
  repeat' split at h
  all_goals (subst h; simp)

theorem singleStage_ne_transferCreateFailed (env : Env) (db : DB) (d : Req)
    (r : RouteResult) (h : singleStage env db d = r) :
    r.out ≠ Outcome.transferCreateFailed := by
  unfold singleStage at h
  repeat' split at h
  all_goals first
    | exact singleWrite_ne_transferCreateFailed env db d _ r h
    | (subst h; simp)

/-! ## Concrete scenarios used by witnesses and counterexamples -/

/-! ## C10 -/

/-- C10: for every request whose `account_id` is present but equal to `0`,
the daily-limit block is skipped entirely (the guard tests Python
truthiness, not presence), so the submission is never rejected with the
daily-limit error regardless of the amounts already posted that day. -/
theorem C10_account_zero_skips_daily_limit (env : Env) (db : DB) (d : Req)
    (h : d.account_id = some (PyVal.int 0)) :
    (create_transaction env db d).out ≠ Outcome.limitExceeded := by
  have hlim : ∀ q, limitStage env db d q = none := by
    intro q
    unfold limitStage
    rw [h]
    simp [truthyOpt, pyTruthy]
  generalize hres : create_transaction env db d = r
  unfold create_transaction at hres
  split at hres
  · subst hres; simp
  split at hres
  · subst hres; simp
  rename_i q hq
  split at hres
  · rename_i e he
    rw [hlim q] at he
    exact absurd he (by simp)
  split at hres
  · split at hres
    · subst hres; simp
    · exact (afterDup_shape env db d r hres).2
  · exact (afterDup_shape env db d r hres).2

theorem C10_witness :
    dailyTotal dbAccountZero 0 0 + 500000 > DAILY_LIMIT ∧
      (create_transaction envOk dbAccountZero reqAccountZero).out ≠ Outcome.limitExceeded :=
  ⟨by with_unfolding_all decide,
   C10_account_zero_skips_daily_limit envOk dbAccountZero reqAccountZero rfl⟩

/-! ## C1 -/

/-- C1, counterexample: a submission whose (correlation key, request hash)
pair matches a stored idempotency mapping is nevertheless answered with
the daily-limit rejection — the route runs field validation, amount
parsing and the limit query (a ledger-store read) before the idempotency
check, so the matching request does not get the `DuplicateRequest`
conflict the claim promises. -/
theorem C1_counterexample :
    findIdem dbLimitFull "c" (request_hash reqDup) = some ⟨"c", request_hash reqDup⟩ ∧
      corrKey reqDup = some "c" ∧
      create_transaction envOk dbLimitFull reqDup =
        ⟨Outcome.limitExceeded, dbLimitFull, false, false⟩ := by
  refine ⟨by with_unfolding_all rfl, rfl, by with_unfolding_all rfl⟩

/-- C1 (amended): once a submission has passed the required-field check,
the `float(... or 0)` parse and the daily-limit block — which runs first
and already queries the ledger store — a correlation key whose
(key, hash) pair matches a stored mapping makes the route stop with the
409 `DuplicateRequest` conflict referencing the mapped prior transaction:
the store is left untouched and neither accounts-service call is made, so
the check still precedes the transfer validation and every network
call. -/
theorem C1_duplicate_conflict_after_limit (env : Env) (db : DB) (d : Req) (c : String)
    (row : IdemRow) (q : ℚ)
    (hfa : d.amount.isNone = false) (hft : d.txn_type.isNone = false)
    (hq : amountOrZero d = some q) (hlim : limitStage env db d q = none)
    (hc : corrKey d = some c) (hfind : findIdem db c (request_hash d) = some row) :
    create_transaction env db d = ⟨Outcome.duplicate (origLookup db c), db, false, false⟩ := by
  unfold create_transaction
  rw [hfa, hft]
  simp only [Bool.or_self, Bool.false_eq_true, if_false, hq, hlim, hc, hfind]

theorem C1_witness :
    origLookup dbDupPrior "c" = some 1 ∧
      create_transaction envOk dbDupPrior reqDup =
        ⟨Outcome.duplicate (origLookup dbDupPrior "c"), dbDupPrior, false, false⟩ :=
  ⟨by with_unfolding_all decide,
   C1_duplicate_conflict_after_limit envOk dbDupPrior reqDup "c"
     ⟨"c", request_hash reqDup⟩ (mkRat 1 1) rfl rfl
     (by with_unfolding_all rfl) (by with_unfolding_all rfl) rfl
     (by with_unfolding_all rfl)⟩

/-! ## C4 -/

/-- C4, counterexample: `account_id = 0` is present, the day's postings
for account `0` plus the request already exceed the cap, yet the
submission is not rejected with the limit error — it is accepted —
because the guard tests truthiness, not presence.  So "for every request
with a present `account_id`" is too strong. -/
theorem C4_counterexample :
    reqZeroBig.account_id = some (PyVal.int 0) ∧
      dailyTotal dbZeroPosted 0 0 + 60000 > DAILY_LIMIT ∧
      (create_transaction envOk dbZeroPosted reqZeroBig).out = Outcome.created 2 := by
  refine ⟨rfl, by with_unfolding_all decide, by with_unfolding_all rfl⟩

/-- C4 (amended): for every request whose `account_id` is *truthy*
(present and neither `0` nor an empty string) and convertible by
`int(...)`, with `S` the sum of committed amounts for that account whose
`created_dt` lies in the current UTC day: if `S + amount` exceeds the
fixed cap of 200000 the submission is rejected with the limit error,
leaving the store untouched and making no external call; otherwise the
limit check passes and the outcome is never the limit error.  (Rows dated
before the current UTC day are excluded by `dailyTotal`.) -/
theorem C4_daily_limit (env : Env) (db : DB) (d : Req) (q : ℚ) (a : ℤ)
    (hfa : d.amount.isNone = false) (hft : d.txn_type.isNone = false)
    (hq : amountOrZero d = some q)
    (htr : truthyOpt d.account_id = true)
    (ha : d.account_id.bind pyInt = some a) :
    (dailyTotal db env.startOfDay a + q > DAILY_LIMIT →
        create_transaction env db d = ⟨Outcome.limitExceeded, db, false, false⟩) ∧
      (¬dailyTotal db env.startOfDay a + q > DAILY_LIMIT →
        (create_transaction env db d).out ≠ Outcome.limitExceeded) := by
  constructor
  · intro hgt
    have hlim : limitStage env db d q = some Outcome.limitExceeded := by
      unfold limitStage
      simp only [htr, if_true, ha]
      rw [if_pos hgt]
    unfold create_transaction
    rw [hfa, hft]
    simp only [Bool.or_self, Bool.false_eq_true, if_false, hq, hlim]
  · intro hle
    have hlim : limitStage env db d q = none := by
      unfold limitStage
      simp only [htr, if_true, ha]
      rw [if_neg hle]
    generalize hres : create_transaction env db d = r
    unfold create_transaction at hres
    split at hres
    · subst hres; simp
    split at hres
    · rename_i hq₂
      rw [hq] at hq₂
      exact absurd hq₂ (by simp)
    rename_i q₂ hq₂
    rw [hq] at hq₂
    simp only [Option.some.injEq] at hq₂
    subst hq₂
    split at hres
    · rename_i e he
      rw [hlim] at he
      exact absurd he (by simp)
    split at hres
    · split at hres
      · subst hres; simp
      · exact (afterDup_shape env db d r hres).2
    · exact (afterDup_shape env db d r hres).2

theorem C4_witness :
    dailyTotal dbPosted150k 0 1 = 150000 ∧
      (¬dailyTotal dbPosted150k 0 1 + 49999 > DAILY_LIMIT) ∧
      (create_transaction envOk dbPosted150k reqPass49999).out ≠ Outcome.limitExceeded ∧
      dailyTotal dbPosted150k 0 1 + 60000 > DAILY_LIMIT ∧
      create_transaction envOk dbPosted150k reqRej60000 =
        ⟨Outcome.limitExceeded, dbPosted150k, false, false⟩ :=
  ⟨by with_unfolding_all rfl,
   by with_unfolding_all decide,
   (C4_daily_limit envOk dbPosted150k reqPass49999 (mkRat 49999 1) 1 rfl rfl
      (by with_unfolding_all rfl) rfl rfl).2 (by with_unfolding_all decide),
   by with_unfolding_all decide,
   (C4_daily_limit envOk dbPosted150k reqRej60000 (mkRat 60000 1) 1 rfl rfl
      (by with_unfolding_all rfl) rfl rfl).1 (by with_unfolding_all decide)⟩

/-! ## C6 -/

/-- C6: a transfer that reaches the accounts pre-check and is rejected
there — transport failure or non-200 from `/check`, a FROZEN or
non-ACTIVE party, or a sender balance below the requested amount — leaves
the store exactly as it was (zero Transaction rows, zero Idempotency
rows) and never reaches `/update-balance`; the transport/non-200 cases
answer with the 502 gateway-class errors while the frozen, inactive and
overdraft cases answer with 400 validation-class rejections. -/
theorem C6_precheck_rejections (env : Env) (db : DB) (d : Req) (q amt : ℚ)
    (hfa : d.amount.isNone = false) (hft : d.txn_type.isNone = false)
    (hq : amountOrZero d = some q) (hlim : limitStage env db d q = none)
    (hdup : ∀ c, corrKey d = some c → findIdem db c (request_hash d) = none)
    (htt : d.txn_type.getD "unknown" = "transfer")
    (hamt : d.amount.bind pyFloat = some amt)
    (hparties : (truthyOpt d.account_id && truthyOpt d.counterparty_id) = true) :
    (env.check = CheckResult.transportError →
        create_transaction env db d = ⟨Outcome.accountsUnavailable, db, true, false⟩) ∧
      (∀ s a c b, env.check = CheckResult.response s a c b → s ≠ 200 →
        create_transaction env db d = ⟨Outcome.checkFailed, db, true, false⟩) ∧
      (∀ a c b, env.check = CheckResult.response 200 a c b →
        (a = some "FROZEN" ∨ c = some "FROZEN") →
        create_transaction env db d = ⟨Outcome.frozen, db, true, false⟩) ∧
      (∀ a c b, env.check = CheckResult.response 200 a c b →
        a ≠ some "FROZEN" → c ≠ some "FROZEN" →
        (a ≠ some "ACTIVE" ∨ c ≠ some "ACTIVE") →
        create_transaction env db d = ⟨Outcome.notActive, db, true, false⟩) ∧
      (∀ b, env.check = CheckResult.response 200 (some "ACTIVE") (some "ACTIVE") (some b) →
        b < amt →
        create_transaction env db d = ⟨Outcome.overdraft, db, true, false⟩) ∧
      statusCode Outcome.accountsUnavailable = 502 ∧
      statusCode Outcome.checkFailed = 502 ∧
      statusCode Outcome.frozen = 400 ∧
      statusCode Outcome.notActive = 400 ∧
      statusCode Outcome.overdraft = 400 := by
  have hcr : create_transaction env db d = transferStage env db d := by
    rw [create_reduces env db d q hfa hft hq hlim hdup]
    unfold afterDup
    rw [if_pos htt]
  rw [hcr]
  unfold transferStage
  simp only [hamt, hparties, Bool.not_true, Bool.false_eq_true, if_false]
  refine ⟨?_, ?_, ?_, ?_, ?_, rfl, rfl, rfl, rfl, rfl⟩
  · intro hc; rw [hc]
  · intro s a c b hc hs
    rw [hc]
    simp only []
    rw [if_pos hs]
  · intro a c b hc hor
    rw [hc]
    simp only []
    rw [if_neg (by simp)]
    have hb : (decide (a = some "FROZEN") || decide (c = some "FROZEN")) = true := by
      rcases hor with h | h <;> simp [h]
    simp only [hb, if_true]
  · intro a c b hc ha hcp hor
    rw [hc]
    simp only []
    rw [if_neg (by simp)]
    have hb : (decide (a = some "FROZEN") || decide (c = some "FROZEN")) = false := by
      simp [ha, hcp]
    have hb₂ : (decide (a ≠ some "ACTIVE") || decide (c ≠ some "ACTIVE")) = true := by
      rcases hor with h | h <;> simp [h]
    simp only [hb, Bool.false_eq_true, if_false, hb₂, if_true]
  · intro b hc hlt
    rw [hc]
    simp only []
    rw [if_neg (by simp)]
    rw [if_neg (by simp), if_neg (by simp)]
    rw [if_pos hlt]

theorem C6_witness :
    create_transaction envFrozen emptyDB reqTfr500 =
        ⟨Outcome.frozen, emptyDB, true, false⟩ ∧
      create_transaction envLowBal emptyDB reqTfr150 =
        ⟨Outcome.overdraft, emptyDB, true, false⟩ :=
  ⟨(C6_precheck_rejections envFrozen emptyDB reqTfr500 (mkRat 500 1) (mkRat 500 1)
      rfl rfl (by with_unfolding_all rfl) (by with_unfolding_all rfl)
      (fun c hc => by simp [corrKey, reqTfr500] at hc) rfl
      (by with_unfolding_all rfl) rfl).2.2.1
    (some "FROZEN") (some "ACTIVE") (some 1000) rfl (Or.inl rfl),
   (C6_precheck_rejections envLowBal emptyDB reqTfr150 (mkRat 150 1) (mkRat 150 1)
      rfl rfl (by with_unfolding_all rfl) (by with_unfolding_all rfl)
      (fun c hc => by simp [corrKey, reqTfr150] at hc) rfl
      (by with_unfolding_all rfl) rfl).2.2.2.2.1
    100 rfl (by with_unfolding_all decide)⟩

/-! ## C7 -/

/-- C7, counterexample: the transfer branch never checks positivity — a
transfer of −5 parses, passes every validation and pre-check, and
completes, persisting both legs; so "a parseable positive amount is
required and a non-positive amount is rejected at validation" fails. -/
theorem C7_counterexample :
    reqTfrNeg.amount.bind pyFloat = some (mkRat (-5) 1) ∧
      mkRat (-5) 1 < 0 ∧
      (create_transaction envOk emptyDB reqTfrNeg).out = Outcome.transferCompleted 1 2 ∧
      (create_transaction envOk emptyDB reqTfrNeg).db.transactions.length = 2 := by
  refine ⟨by with_unfolding_all rfl, by with_unfolding_all decide,
    by with_unfolding_all rfl, by with_unfolding_all rfl⟩

/-- C7 (amended): the transfer branch requires a truthy `account_id`, a
truthy `counterparty_id` and an amount that `float(...)` converts; an
unconvertible amount or a missing/falsy party aborts at validation with
the store untouched and no external call.  Positivity of the amount is
not checked (see the counterexample). -/
theorem C7_transfer_validation (env : Env) (db : DB) (d : Req) (q : ℚ)
    (hfa : d.amount.isNone = false) (hft : d.txn_type.isNone = false)
    (hq : amountOrZero d = some q) (hlim : limitStage env db d q = none)
    (hdup : ∀ c, corrKey d = some c → findIdem db c (request_hash d) = none)
    (htt : d.txn_type.getD "unknown" = "transfer") :
    (d.amount.bind pyFloat = none →
        create_transaction env db d = ⟨Outcome.invalidTransferAmount, db, false, false⟩) ∧
      (∀ amt, d.amount.bind pyFloat = some amt →
        (truthyOpt d.account_id && truthyOpt d.counterparty_id) = false →
        create_transaction env db d = ⟨Outcome.missingTransferParties, db, false, false⟩) := by
  have hcr : create_transaction env db d = transferStage env db d := by
    rw [create_reduces env db d q hfa hft hq hlim hdup]
    unfold afterDup
    rw [if_pos htt]
  rw [hcr]
  unfold transferStage
  constructor
  · intro hnone
    simp only [hnone]
  · intro amt hamt hfalse
    simp only [hamt, hfalse, Bool.not_false, if_true]

theorem C7_witness :
    create_transaction envOk emptyDB reqTfrNoCp =
        ⟨Outcome.missingTransferParties, emptyDB, false, false⟩ ∧
      create_transaction envOk emptyDB reqTfrEmptyAmt =
        ⟨Outcome.invalidTransferAmount, emptyDB, false, false⟩ :=
  ⟨(C7_transfer_validation envOk emptyDB reqTfrNoCp (mkRat 10 1) rfl rfl
      (by with_unfolding_all rfl) (by with_unfolding_all rfl)
      (fun c hc => by simp [corrKey, reqTfrNoCp] at hc) rfl).2
    (mkRat 10 1) (by with_unfolding_all rfl) rfl,
   (C7_transfer_validation envOk emptyDB reqTfrEmptyAmt (mkRat 0 1) rfl rfl
      (by with_unfolding_all rfl) (by with_unfolding_all rfl)
      (fun c hc => by simp [corrKey, reqTfrEmptyAmt] at hc) rfl).1
    (by with_unfolding_all rfl)⟩

/-! ## C8 -/

/-- C8: a present correlation key for which every stored mapping has a
different request hash is a *new* request: the duplicate branch is not
taken, processing proceeds exactly as the post-duplicate dispatch, and a
successful outcome persists a fresh transaction (one new row, or the two
legs) with the fresh `txn_id`s appended to the store. -/
theorem C8_changed_body_is_new_request (env : Env) (db : DB) (d : Req) (q : ℚ) (c : String)
    (hfa : d.amount.isNone = false) (hft : d.txn_type.isNone = false)
    (hq : amountOrZero d = some q) (hlim : limitStage env db d q = none)
    (hc : corrKey d = some c)
    (hdiff : ∀ row ∈ db.idempotency, row.key = c → row.request_hash ≠ request_hash d) :
    create_transaction env db d = afterDup env db d ∧
      (create_transaction env db d).out.isDup = false ∧
      (∀ tid, (create_transaction env db d).out = Outcome.created tid →
        tid = db.nextId ∧
        ∃ t, (create_transaction env db d).db.transactions = db.transactions ++ [t]) ∧
      (∀ wid did, (create_transaction env db d).out = Outcome.transferCompleted wid did →
        wid = db.nextId ∧ did = db.nextId + 1 ∧
        ∃ w dep,
          (create_transaction env db d).db.transactions = db.transactions ++ [w, dep]) := by
  have hfind : findIdem db c (request_hash d) = none := by
    unfold findIdem
    apply List.find?_eq_none.mpr
    intro row hrow
    simp only [decide_eq_true_eq, not_and]
    intro hk
    exact hdiff row hrow hk
  have hdup : ∀ c₂, corrKey d = some c₂ → findIdem db c₂ (request_hash d) = none := by
    intro c₂ hc₂
    rw [hc] at hc₂
    simp only [Option.some.injEq] at hc₂
    rw [← hc₂]
    exact hfind
  have hcr := create_reduces env db d q hfa hft hq hlim hdup
  refine ⟨hcr, (afterDup_shape env db d _ hcr.symm).1, ?_, ?_⟩
  · intro tid hout
    rcases afterDup_dispatch env db d _ hcr.symm with ⟨htt, hts⟩ | ⟨htt, hss⟩
    · exact absurd hout ((transferStage_shape env db d _ hts).2.2 tid)
    · obtain ⟨aid, hsw⟩ := singleStage_created_reach env db d _ tid hss hout
      obtain ⟨amt, hamt, h1, h2, h3, htid, hr⟩ :=
        singleWrite_created_inv env db d aid _ tid hsw hout
      exact ⟨htid, ⟨singleRow env db d aid amt, by rw [hr]⟩⟩
  · intro wid did hout
    rcases afterDup_dispatch env db d _ hcr.symm with ⟨htt, hts⟩ | ⟨htt, hss⟩
    · obtain ⟨amt, b, hamt, h1, h2, hchk, hbal, hw⟩ :=
        transferStage_completed_inv env db d _ wid did hts hout
      obtain ⟨a, cp, ha, hcp, k1, k2, k3, hwid, hdid, hr⟩ :=
        transferWrite_completed_inv env db d amt _ wid did hw hout
      exact ⟨hwid, hdid, withdrawalLeg env db d amt a, depositLeg env db d amt cp,
        by rw [hr]⟩
    · exact absurd hout ((singleStage_shape env db d _ hss).2.2 wid did)

theorem C8_witness :
    request_hash reqNewHash ≠ request_hash reqDup ∧
      (create_transaction envOk dbStaleMapping reqNewHash).out.isDup = false ∧
      (create_transaction envOk dbStaleMapping reqNewHash).out = Outcome.created 1 :=
  ⟨by with_unfolding_all decide,
   (C8_changed_body_is_new_request envOk dbStaleMapping reqNewHash (mkRat 7 1) "c"
      rfl rfl (by with_unfolding_all rfl) (by with_unfolding_all rfl) rfl
      (by with_unfolding_all decide)).2.1,
   by with_unfolding_all rfl⟩

/-! ## C9 -/

theorem legs_refClash (env : Env) (db : DB) (d : Req) (amt : ℚ) (a cp : ℤ) (s : String)
    (href : d.reference = some s) :
    newRefsClash db.transactions
      [withdrawalLeg env db d amt a, depositLeg env db d amt cp] = true := by
  unfold newRefsClash
  simp [withdrawalLeg, depositLeg, href, List.any_append]

/-- C9: both legs of a transfer are given the same `reference` value, so
whenever the request carries a non-null reference the unique constraint
on `Transaction.reference` rejects the commit: the write stage reaching
the ledger rolls the whole unit back, answers with the 500 internal
error, and persists nothing — hence a transfer can complete only when its
reference is absent. -/
theorem C9_nonnull_reference_dooms_transfer (env : Env) (db : DB) (d : Req)
    (q amt b : ℚ) (s : String)
    (hfa : d.amount.isNone = false) (hft : d.txn_type.isNone = false)
    (hq : amountOrZero d = some q) (hlim : limitStage env db d q = none)
    (hdup : ∀ c, corrKey d = some c → findIdem db c (request_hash d) = none)
    (htt : d.txn_type.getD "unknown" = "transfer")
    (hamt : d.amount.bind pyFloat = some amt)
    (hparties : (truthyOpt d.account_id && truthyOpt d.counterparty_id) = true)
    (hcheck : env.check = CheckResult.response 200 (some "ACTIVE") (some "ACTIVE") (some b))
    (hbal : ¬b < amt) (href : d.reference = some s) :
    create_transaction env db d = ⟨Outcome.transferCreateFailed, db, true, false⟩ ∧
      ∀ env₂ db₂ d₂ r wid did, create_transaction env₂ db₂ d₂ = r →
        r.out = Outcome.transferCompleted wid did → d₂.reference = none := by
  constructor
  · have hcr : create_transaction env db d = transferStage env db d := by
      rw [create_reduces env db d q hfa hft hq hlim hdup]
      unfold afterDup
      rw [if_pos htt]
    rw [hcr]
    unfold transferStage
    simp only [hamt, hparties, Bool.not_true, Bool.false_eq_true, if_false, hcheck]
    rw [if_neg (by simp), if_neg (by simp), if_neg (by simp)]
    rw [if_neg hbal]
    exact transferWrite_reference_fails env db d amt s href
  · intro env₂ db₂ d₂ r wid did h hout
    have hs : r.out.isSuccess = true := by rw [hout]; simp [Outcome.isSuccess]
    obtain ⟨_, _, _, _, hcr⟩ := create_success_inv env₂ db₂ d₂ r h hs
    rcases afterDup_dispatch env₂ db₂ d₂ r hcr with ⟨htt₂, hts⟩ | ⟨htt₂, hss⟩
    · obtain ⟨amt₂, b₂, hamt₂, _, _, _, _, hw⟩ :=
        transferStage_completed_inv env₂ db₂ d₂ r wid did hts hout
      obtain ⟨a₂, cp₂, _, _, hnoclash, _, _, _, _, _⟩ :=
        transferWrite_completed_inv env₂ db₂ d₂ amt₂ r wid did hw hout
      cases href₂ : d₂.reference with
      | none => rfl
      | some s₂ =>
        rw [legs_refClash env₂ db₂ d₂ amt₂ a₂ cp₂ s₂ href₂] at hnoclash
        exact absurd hnoclash (by simp)
    · exact absurd hout ((singleStage_shape env₂ db₂ d₂ r hss).2.2 wid did)

theorem C9_witness :
    create_transaction envOk emptyDB reqTfrRef =
      ⟨Outcome.transferCreateFailed, emptyDB, true, false⟩ :=
  (C9_nonnull_reference_dooms_transfer envOk emptyDB reqTfrRef
    (mkRat 50 1) (mkRat 50 1) 1000000 "r1" rfl rfl
    (by with_unfolding_all rfl) (by with_unfolding_all rfl)
    (fun c hc => by simp [corrKey, reqTfrRef] at hc) rfl
    (by with_unfolding_all rfl) rfl rfl
    (by with_unfolding_all decide) rfl).1

/-! ## C2 -/

/-- C2: a completed transfer persists exactly two new rows, appended
together: a withdrawal leg of `−|amount|` for the sender with the
receiver as counterparty, and a deposit leg of `+|amount|` for the
receiver with the sender as counterparty, both carrying the request's
`reference` and correlation key; the idempotency row (present exactly
when a correlation key was supplied) is committed in the same unit, and a
failed write unit persists nothing at all. -/
theorem C2_transfer_double_entry (env : Env) (db : DB) (d : Req)
    (r : RouteResult) (wid did : ℕ) (h : create_transaction env db d = r) :
    (r.out = Outcome.transferCompleted wid did →
      d.txn_type.getD "unknown" = "transfer" ∧
      ∃ amt a cp,
        d.amount.bind pyFloat = some amt ∧
        d.account_id.bind pyInt = some a ∧
        d.counterparty_id.bind pyInt = some cp ∧
        wid = db.nextId ∧ did = db.nextId + 1 ∧
        r.db.transactions = db.transactions ++
          [⟨db.nextId, some a, d.counterparty_id, -absQ amt, some "withdrawal",
             d.reference, d.created_dt.getD env.now, none, d.correlation_id⟩,
           ⟨db.nextId + 1, some cp, d.account_id, absQ amt, some "deposit",
             d.reference, d.created_dt.getD env.now, none, d.correlation_id⟩] ∧
        r.db.idempotency = db.idempotency ++ idemInserts d ∧
        r.db.nextId = db.nextId + 2) ∧
    (r.out = Outcome.transferCreateFailed → r.db = db) := by
  constructor
  · intro hout
    have hs : r.out.isSuccess = true := by rw [hout]; simp [Outcome.isSuccess]
    obtain ⟨_, _, _, _, hcr⟩ := create_success_inv env db d r h hs
    rcases afterDup_dispatch env db d r hcr with ⟨htt, hts⟩ | ⟨htt, hss⟩
    · refine ⟨htt, ?_⟩
      obtain ⟨amt, b, hamt, _, _, _, _, hw⟩ :=
        transferStage_completed_inv env db d r wid did hts hout
      obtain ⟨a, cp, ha, hcp, _, _, _, hwid, hdid, hr⟩ :=
        transferWrite_completed_inv env db d amt r wid did hw hout
      exact ⟨amt, a, cp, hamt, ha, hcp, hwid, hdid, by rw [hr]; rfl, by rw [hr],
        by rw [hr]⟩
    · exact absurd hout ((singleStage_shape env db d r hss).2.2 wid did)
  · intro hout
    have hAfter : afterDup env db d = r → r.db = db := by
      intro h₂
      rcases afterDup_dispatch env db d r h₂ with ⟨htt, hts⟩ | ⟨htt, hss⟩
      · have hrec := transferStage_createFailed_inv env db d r hts hout
        rw [hrec]
      · exact absurd hout (singleStage_ne_transferCreateFailed env db d r hss)
    unfold create_transaction at h
    split at h
    · subst h; simp at hout
    split at h
    · subst h; simp at hout
    rename_i q hq
    split at h
    · rename_i e he
      subst h
      simp only [RouteResult.out] at hout
      subst hout
      rcases limitStage_some env db d q _ he with he2 | he2 <;> simp at he2
    split at h
    · split at h
      · subst h; simp at hout
      · exact hAfter h
    · exact hAfter h

theorem C2_witness :
    reqTfrOk.txn_type.getD "unknown" = "transfer" ∧
      ∃ amt a cp,
        reqTfrOk.amount.bind pyFloat = some amt ∧
        reqTfrOk.account_id.bind pyInt = some a ∧
        reqTfrOk.counterparty_id.bind pyInt = some cp ∧
        (1 : ℕ) = emptyDB.nextId ∧ (2 : ℕ) = emptyDB.nextId + 1 ∧
        (create_transaction envOk emptyDB reqTfrOk).db.transactions =
          emptyDB.transactions ++
          [⟨emptyDB.nextId, some a, reqTfrOk.counterparty_id, -absQ amt,
             some "withdrawal", reqTfrOk.reference,
             reqTfrOk.created_dt.getD envOk.now, none, reqTfrOk.correlation_id⟩,
           ⟨emptyDB.nextId + 1, some cp, reqTfrOk.account_id, absQ amt,
             some "deposit", reqTfrOk.reference,
             reqTfrOk.created_dt.getD envOk.now, none, reqTfrOk.correlation_id⟩] ∧
        (create_transaction envOk emptyDB reqTfrOk).db.idempotency =
          emptyDB.idempotency ++ idemInserts reqTfrOk ∧
        (create_transaction envOk emptyDB reqTfrOk).db.nextId = emptyDB.nextId + 2 :=
  (C2_transfer_double_entry envOk emptyDB reqTfrOk
      (create_transaction envOk emptyDB reqTfrOk) 1 2 rfl).1
    (by with_unfolding_all rfl)

/-! ## C3 -/

/-- C3, counterexample: on the single-leg path, a raised (transport
failure) `/update-balance` call is answered with the generic 500 whose
error template is the very `Error creating transfer transactions` string
used for local persistence failures — not a distinguished 502
settlement-failure response as the transfer path produces — even though
the row is already committed and remains visible to a list query, the
attempted rollback having no effect after the commit. -/
theorem C3_counterexample :
    (create_transaction envUpdExn emptyDB reqDep100).updateCalled = true ∧
      (create_transaction envUpdExn emptyDB reqDep100).out =
        Outcome.singleUpdateContactFailed ∧
      statusCode (create_transaction envUpdExn emptyDB reqDep100).out = 500 ∧
      errorTemplate (create_transaction envUpdExn emptyDB reqDep100).out =
        errorTemplate Outcome.transferCreateFailed ∧
      statusCode Outcome.balanceUpdateFailed = 502 ∧
      statusCode Outcome.updateContactFailed = 502 ∧
      listTransactions (create_transaction envUpdExn emptyDB reqDep100).db =
        [⟨1, some 1, none, 100, some "deposit", none, 3600, none, none⟩] := by
  refine ⟨by with_unfolding_all rfl, by with_unfolding_all rfl,
    by with_unfolding_all rfl, by with_unfolding_all rfl, rfl, rfl,
    by with_unfolding_all rfl⟩

/-- C3 (amended): whenever the local ledger commit has happened (the
route reached `/update-balance`) and that call fails — raised transport
error or non-200 — the caller gets an error while the freshly committed
rows stay in the store and appear in a subsequent list query, on both the
transfer and single-leg paths; the error is the distinguished 502
settlement-failure class in the transfer path and for a single-leg
non-200, but a single-leg transport failure is answered with the generic
500 reusing the persistence-failure template (the rollback it attempts
is a no-op on the committed rows). -/
theorem C3_settlement_drift (env : Env) (db : DB) (d : Req) (r : RouteResult)
    (h : create_transaction env db d = r) (hu : r.updateCalled = true)
    (hfail : env.update = UpdateResult.transportError ∨
      ∃ s, env.update = UpdateResult.response s ∧ s ≠ 200) :
    (∃ ts, ts ≠ [] ∧ r.db.transactions = db.transactions ++ ts ∧
        ∀ t ∈ ts, t ∈ listTransactions r.db) ∧
      (r.out = Outcome.balanceUpdateFailed ∨ r.out = Outcome.updateContactFailed ∨
        r.out = Outcome.singleUpdateContactFailed) ∧
      statusCode Outcome.balanceUpdateFailed = 502 ∧
      statusCode Outcome.updateContactFailed = 502 ∧
      statusCode Outcome.singleUpdateContactFailed = 500 ∧
      errorTemplate Outcome.singleUpdateContactFailed =
        errorTemplate Outcome.transferCreateFailed := by
  have hcr := create_update_reach env db d r h hu
  have hmem : ∀ (ts : List Transaction),
      r.db.transactions = db.transactions ++ ts → ∀ t ∈ ts, t ∈ listTransactions r.db := by
    intro ts hts t ht
    unfold listTransactions
    rw [hts]
    exact List.mem_append_right _ ht
  rcases afterDup_dispatch env db d r hcr with ⟨htt, hts⟩ | ⟨htt, hss⟩
  · obtain ⟨amt, hamt, hw⟩ := transferStage_update_reach env db d r hts hu
    obtain ⟨a, cp, ha, hcp, hdb, hc1, hc2, hc3⟩ :=
      transferWrite_update_inv env db d amt r hw hu
    refine ⟨⟨[withdrawalLeg env db d amt a, depositLeg env db d amt cp], by simp,
        by rw [hdb], hmem _ (by rw [hdb])⟩, ?_, rfl, rfl, rfl, rfl⟩
    rcases hfail with hf | ⟨s, hf, hs⟩
    · exact Or.inr (Or.inl (hc1 hf))
    · exact Or.inl (hc2 s hf hs)
  · obtain ⟨aid, hsw⟩ := singleStage_update_reach env db d r hss hu
    obtain ⟨amt, hamt, hdb, hc1, hc2, hc3⟩ :=
      singleWrite_update_inv env db d aid r hsw hu
    refine ⟨⟨[singleRow env db d aid amt], by simp, by rw [hdb],
        hmem _ (by rw [hdb])⟩, ?_, rfl, rfl, rfl, rfl⟩
    rcases hfail with hf | ⟨s, hf, hs⟩
    · exact Or.inr (Or.inr (hc1 hf))
    · exact Or.inl (hc2 s hf hs)

theorem C3_witness :
    (∃ ts, ts ≠ [] ∧
        (create_transaction envUpdExn emptyDB reqDep100).db.transactions =
          emptyDB.transactions ++ ts ∧
        ∀ t ∈ ts, t ∈ listTransactions (create_transaction envUpdExn emptyDB reqDep100).db) ∧
      ((create_transaction envUpdExn emptyDB reqDep100).out = Outcome.balanceUpdateFailed ∨
        (create_transaction envUpdExn emptyDB reqDep100).out = Outcome.updateContactFailed ∨
        (create_transaction envUpdExn emptyDB reqDep100).out =
          Outcome.singleUpdateContactFailed) ∧
      statusCode Outcome.balanceUpdateFailed = 502 ∧
      statusCode Outcome.updateContactFailed = 502 ∧
      statusCode Outcome.singleUpdateContactFailed = 500 ∧
      errorTemplate Outcome.singleUpdateContactFailed =
        errorTemplate Outcome.transferCreateFailed :=
  C3_settlement_drift envUpdExn emptyDB reqDep100
    (create_transaction envUpdExn emptyDB reqDep100) rfl
    (by with_unfolding_all rfl) (Or.inl rfl)

/-! ## C5 -/

/-- C5, counterexample: replaying an identical correlation key and body
does not always yield a conflict — the daily-limit check runs before the
idempotency lookup and now counts the first call's committed row, so a
replayed 150000 deposit is rejected with the limit error instead of the
409 conflict (the store still holds exactly the one outcome). -/
theorem C5_counterexample :
    (create_transaction envOk emptyDB reqBig150k).out = Outcome.created 1 ∧
      (create_transaction envOk
          (create_transaction envOk emptyDB reqBig150k).db reqBig150k).out =
        Outcome.limitExceeded ∧
      ((create_transaction envOk
          (create_transaction envOk emptyDB reqBig150k).db reqBig150k).out).isDup =
        false ∧
      (create_transaction envOk
          (create_transaction envOk emptyDB reqBig150k).db reqBig150k).db =
        (create_transaction envOk emptyDB reqBig150k).db := by
  refine ⟨by with_unfolding_all rfl, by with_unfolding_all rfl,
    by with_unfolding_all rfl, by with_unfolding_all rfl⟩

theorem second_call_replay (env : Env) (db₂ : DB) (d : Req) (c : String) (q : ℚ)
    (oid : ℕ)
    (hfa : d.amount.isNone = false) (hft : d.txn_type.isNone = false)
    (hq : amountOrZero d = some q)
    (hlimr : limitStage env db₂ d q = none ∨
      limitStage env db₂ d q = some Outcome.limitExceeded)
    (hc : corrKey d = some c)
    (hfind : ∃ row, findIdem db₂ c (request_hash d) = some row)
    (horig : origLookup db₂ c = some oid) :
    create_transaction env db₂ d = ⟨Outcome.limitExceeded, db₂, false, false⟩ ∨
      create_transaction env db₂ d = ⟨Outcome.duplicate (some oid), db₂, false, false⟩ := by
  obtain ⟨row, hrow⟩ := hfind
  unfold create_transaction
  rw [hfa, hft]
  simp only [Bool.or_self, Bool.false_eq_true, if_false, hq]
  rcases hlimr with hl | hl
  · right
    simp only [hl, hc, hrow, horig]
  · left
    simp only [hl]

/-- C5 (amended): after a successful submission under a fresh correlation
key, replaying the identical body with the same key persists nothing new
— the store stays exactly as the first call left it — and the second call
is answered either with the 409 conflict whose `original_txn_id` is the
first Transaction row the first call inserted (the single row, or the
withdrawal leg of a transfer), or, when the replayed amount plus the
now-posted rows trips the daily cap checked first, with the daily-limit
rejection. -/
theorem C5_replay_conflict_or_limit (env₁ env₂ : Env) (db : DB) (d : Req)
    (r₁ : RouteResult) (c : String)
    (h1 : create_transaction env₁ db d = r₁)
    (hs : r₁.out.isSuccess = true)
    (hc : corrKey d = some c)
    (hfresh : ∀ t ∈ db.transactions, t.correlation_id ≠ some c) :
    (create_transaction env₂ r₁.db d).db = r₁.db ∧
      ((create_transaction env₂ r₁.db d).out = Outcome.limitExceeded ∨
        (create_transaction env₂ r₁.db d).out = Outcome.duplicate (some db.nextId)) := by
  obtain ⟨hfa, hft, ⟨q, hq, hlim⟩, hdup, hcr⟩ := create_success_inv env₁ db d r₁ h1 hs
  have hcor : d.correlation_id = some c := corrKey_some_inv d c hc
  have hfind1 : findIdem db c (request_hash d) = none := hdup c hc
  have hchar : ∃ t₀ rest n₂,
      r₁.db = ⟨db.transactions ++ (t₀ :: rest),
        db.idempotency ++ [⟨c, request_hash d⟩], n₂⟩ ∧
      t₀.correlation_id = some c ∧ t₀.txn_id = db.nextId := by
    rcases isSuccess_cases r₁.out hs with ⟨tid, hout⟩ | ⟨wid, did, hout⟩
    · rcases afterDup_dispatch env₁ db d r₁ hcr with ⟨htt, hts⟩ | ⟨htt, hss⟩
      · exact absurd hout ((transferStage_shape env₁ db d r₁ hts).2.2 tid)
      · obtain ⟨aid, hsw⟩ := singleStage_created_reach env₁ db d r₁ tid hss hout
        obtain ⟨amt, hamt, _, _, _, _, hr⟩ :=
          singleWrite_created_inv env₁ db d aid r₁ tid hsw hout
        refine ⟨singleRow env₁ db d aid amt, [], db.nextId + 1, ?_, hcor, rfl⟩
        rw [hr, idemInserts_of_corrKey d c hc]
    · rcases afterDup_dispatch env₁ db d r₁ hcr with ⟨htt, hts⟩ | ⟨htt, hss⟩
      · obtain ⟨amt, b, hamt, _, _, _, _, hw⟩ :=
          transferStage_completed_inv env₁ db d r₁ wid did hts hout
        obtain ⟨a, cp, _, _, _, _, _, _, _, hr⟩ :=
          transferWrite_completed_inv env₁ db d amt r₁ wid did hw hout
        refine ⟨withdrawalLeg env₁ db d amt a, [depositLeg env₁ db d amt cp],
          db.nextId + 2, ?_, hcor, rfl⟩
        rw [hr, idemInserts_of_corrKey d c hc]
      · exact absurd hout ((singleStage_shape env₁ db d r₁ hss).2.2 wid did)
  obtain ⟨t₀, rest, n₂, hdb2, ht₀c, ht₀id⟩ := hchar
  have hlimr := limitStage_replay env₁ env₂ db r₁.db d q hlim
  have hfind2 : findIdem r₁.db c (request_hash d) = some ⟨c, request_hash d⟩ := by
    unfold findIdem at hfind1 ⊢
    rw [hdb2]
    show List.find? _ (db.idempotency ++ [⟨c, request_hash d⟩]) = _
    rw [List.find?_append, hfind1]
    simp
  have horig : origLookup r₁.db c = some db.nextId := by
    unfold origLookup
    rw [hdb2]
    show (List.find? _ (db.transactions ++ (t₀ :: rest))).map _ = _
    rw [List.find?_append]
    have h₁ : List.find? (fun t => decide (t.correlation_id = some c))
        db.transactions = none := by
      apply List.find?_eq_none.mpr
      intro t ht
      simp only [decide_eq_true_eq]
      exact hfresh t ht
    rw [h₁]
    simp [List.find?, ht₀c, ht₀id]
  rcases second_call_replay env₂ r₁.db d c q db.nextId hfa hft hq hlimr hc
      ⟨_, hfind2⟩ horig with h2 | h2
  · rw [h2]; exact ⟨rfl, Or.inl rfl⟩
  · rw [h2]; exact ⟨rfl, Or.inr rfl⟩

theorem C5_witness :
    (create_transaction envOk (create_transaction envOk emptyDB reqDup).db reqDup).db =
        (create_transaction envOk emptyDB reqDup).db ∧
      ((create_transaction envOk (create_transaction envOk emptyDB reqDup).db reqDup).out =
          Outcome.limitExceeded ∨
        (create_transaction envOk (create_transaction envOk emptyDB reqDup).db reqDup).out =
          Outcome.duplicate (some emptyDB.nextId)) :=
  C5_replay_conflict_or_limit envOk envOk emptyDB reqDup
    (create_transaction envOk emptyDB reqDup) "c" rfl
    (by with_unfolding_all rfl) rfl (by simp [emptyDB])
